import Mathlib

/-!
Verification of the book-blend backend core: a shallow embedding of the
RSS feed parser (`util/rss_feed_books.py`), the HTML-table paginator
(`goodreads_parser.py`) and the blend scorer (`util/blend.py`), together
with theorems settling the specification claims.

Numeric conventions: Python floats are modelled as `ℚ`; Python `None` as
`Option.none`; raised exceptions as `Except.error`.
-/

namespace BookBlend

/-- A calendar date, the result of Python `datetime.date()`. -/
structure Date where
  year : Nat
  month : Nat
  day : Nat
deriving DecidableEq, Repr

/-- Python exception kinds raised by the parsing code in `parse_rss`:
`TypeError` (e.g. `float(None)`, `re.sub` on `None`), `ValueError`
(e.g. `int("abc")`), `AttributeError` (e.g. `None.strip()`). -/
inductive PyErr where
  | typeError
  | valueError
  | attributeError
deriving DecidableEq, Repr

/-- One normalized book record, the row dict built by `parse_rss` in
`util/rss_feed_books.py` (fields in source order). -/
structure Book where
  title : String
  author : String
  user_shelves : String
  link : String
  isbn : Option String
  average_rating : ℚ
  user_rating : Option Int
  user_review : String
  read_at : Option Date
  date_added : Option Date
  book_id : Option String
  num_pages : Option Nat
  book_published : Option Int
  image_small : Option String
  image_medium : Option String
  image_large : Option String
deriving DecidableEq, Repr

/-- The nested `<book>` element of one RSS `<item>`: its `id` attribute and
`num_pages` child text, as read by `parse_rss`. -/
structure RawBookElem where
  id : Option String
  num_pages : Option String
deriving DecidableEq, Repr

/-- One raw RSS `<item>`: each field is `item.findtext(tag)`, which is
`none` when the tag is absent. -/
structure RawItem where
  title : Option String
  author_name : Option String
  user_shelves : Option String
  isbn : Option String
  average_rating : Option String
  user_rating : Option String
  user_review : Option String
  user_read_at : Option String
  user_date_added : Option String
  book_id : Option String
  book_published : Option String
  book_small_image_url : Option String
  book_medium_image_url : Option String
  book_large_image_url : Option String
  book : Option RawBookElem
deriving DecidableEq, Repr

/-- Value of a nonempty all-digit character list, `none` otherwise.  This is
exactly the guard `num_pages.isdigit()` used in `parse_rss` composed with
`int`. -/
def parseDigits (l : List Char) : Option Nat :=
  if l ≠ [] ∧ l.all Char.isDigit then
    some (l.foldl (fun n c => 10 * n + (c.toNat - 48)) 0)
  else none

/-- Leading/trailing-whitespace stripping, the Python `str.strip()` and
the `.strip()` calls in `parse_rss`/`to_date` (structural recursion over
the character list so concrete inputs evaluate in proofs). -/
def pyStrip (l : List Char) : List Char :=
  (((l.dropWhile Char.isWhitespace).reverse.dropWhile Char.isWhitespace).reverse)

/-- `pyStrip` on strings. -/
def pyStripStr (s : String) : String := String.mk (pyStrip s.toList)

/-- The maximal non-whitespace runs of a character list (accumulator-based
so it is structural): the behaviour of `str.split()` / the `\s+` regex
tokenization. -/
def wsTokensAux : List Char → List Char → List (List Char)
  | [], acc => if acc = [] then [] else [acc.reverse]
  | c :: rest, acc =>
    if c.isWhitespace then
      if acc = [] then wsTokensAux rest []
      else acc.reverse :: wsTokensAux rest []
    else wsTokensAux rest (c :: acc)

/-- Split a character list at every occurrence of a separator character
(`str.split(sep)` with empty segments kept). -/
def splitSepAux (sep : Char) : List Char → List Char → List (List Char)
  | [], acc => [acc.reverse]
  | c :: rest, acc =>
    if c = sep then acc.reverse :: splitSepAux sep rest []
    else splitSepAux sep rest (c :: acc)

/-- Modelled from the Python builtin `int(str)` used by `parse_rss`: strips
surrounding whitespace, accepts an optional sign followed by digits, raises
`ValueError` (here `none`) otherwise.  (Underscore digit separators, an
exotic accepted form, are not modelled; no claim depends on them.) -/
def pyInt (s : String) : Option Int :=
  match pyStrip s.toList with
  | '+' :: rest => (parseDigits rest).map Int.ofNat
  | '-' :: rest => (parseDigits rest).map (fun n => -(n : Int))
  | l => (parseDigits l).map Int.ofNat

/-- Decimal-literal part of the Python builtin `float(str)`: optional sign,
digits with an optional fractional part.  (The `inf`/`nan`/exponent forms
accepted by `float` are not modelled; no claim depends on them.) -/
def parseDecimal (l : List Char) : Option ℚ :=
  let intPart := l.takeWhile Char.isDigit
  let rest := l.dropWhile Char.isDigit
  match rest with
  | [] =>
    (parseDigits intPart).map (fun n => (n : ℚ))
  | '.' :: frac =>
    if intPart = [] then
      (parseDigits frac).map (fun n => (n : ℚ) / (10 : ℚ) ^ frac.length)
    else if frac = [] then
      (parseDigits intPart).map (fun n => (n : ℚ))
    else
      match parseDigits intPart, parseDigits frac with
      | some i, some f => some ((i : ℚ) + (f : ℚ) / (10 : ℚ) ^ frac.length)
      | _, _ => none
  | _ => none

/-- Modelled from the Python builtin `float(str)` used by `parse_rss` for
`average_rating`: strip whitespace, optional sign, decimal literal. -/
def pyFloat (s : String) : Option ℚ :=
  match pyStrip s.toList with
  | '+' :: rest => parseDecimal rest
  | '-' :: rest => (parseDecimal rest).map (fun q => -q)
  | l => parseDecimal l

/-- Modelled from the Python `str.lower()` method (ASCII range; the feed
and shelf tokens compared here are ASCII). -/
def pyLower (s : String) : String :=
  String.mk (s.toList.map Char.toLower)

/-- `re.sub(r'\s+', ' ', s).strip()` from `parse_rss`: collapse every
whitespace run to a single space long and strip the ends; equivalently,
join the nonempty whitespace-separated tokens with single spaces. -/
def collapseWs (s : String) : String :=
  String.intercalate " " ((wsTokensAux s.toList []).map (fun t => String.mk t))

/-- Month abbreviations recognised by `strptime` `%b` (lower-cased). -/
def monthNum (m : String) : Option Nat :=
  match m with
  | "jan" => some 1
  | "feb" => some 2
  | "mar" => some 3
  | "apr" => some 4
  | "may" => some 5
  | "jun" => some 6
  | "jul" => some 7
  | "aug" => some 8
  | "sep" => some 9
  | "oct" => some 10
  | "nov" => some 11
  | "dec" => some 12
  | _ => none

/-- Gregorian leap-year rule used by `datetime`'s day-of-month validation. -/
def isLeap (y : Nat) : Bool :=
  y % 4 = 0 && (y % 100 ≠ 0 || y % 400 = 0)

/-- Days in a month, as validated by `datetime.datetime`. -/
def daysInMonth (y m : Nat) : Nat :=
  if m = 2 then (if isLeap y then 29 else 28)
  else if m = 4 ∨ m = 6 ∨ m = 9 ∨ m = 11 then 30
  else 31

/-- All-digit numeral of bounded width: used for the `%d`, `%H`, `%M`, `%S`
fields of `strptime`, which accept one or two digits. -/
def parseBounded (l : List Char) (maxLen bound : Nat) : Option Nat :=
  match parseDigits l with
  | some n => if l.length ≤ maxLen ∧ n ≤ bound then some n else none
  | none => none

/-- The `%H:%M:%S` part of the RSS date format (hour 0-23, minute 0-59,
second 0-61, each one or two digits, as in CPython's `_strptime` regex). -/
def timeOk (t : List Char) : Bool :=
  match splitSepAux ':' t [] with
  | [h, m, s] =>
    (parseBounded h 2 23).isSome && (parseBounded m 2 59).isSome &&
      (parseBounded s 2 61).isSome
  | _ => false

/-- The `%z` timezone of the RSS date format: `±HHMM` or `±HH:MM` with the
offset under 24 hours, or the literal `Z` (seen lower-cased here since the
whole input is lower-cased first; fractional-second offsets, another
accepted exotic form, are not modelled). -/
def tzOk (t : List Char) : Bool :=
  match t with
  | [c, h1, h2, m1, m2] =>
    (c = '+' || c = '-') && [h1, h2, m1, m2].all Char.isDigit &&
      ((h1.toNat - 48) * 10 + (h2.toNat - 48)) * 60 +
        ((m1.toNat - 48) * 10 + (m2.toNat - 48)) < 1440 &&
      (m1.toNat - 48) * 10 + (m2.toNat - 48) < 60
  | [c, h1, h2, ':', m1, m2] =>
    (c = '+' || c = '-') && [h1, h2, m1, m2].all Char.isDigit &&
      ((h1.toNat - 48) * 10 + (h2.toNat - 48)) * 60 +
        ((m1.toNat - 48) * 10 + (m2.toNat - 48)) < 1440 &&
      (m1.toNat - 48) * 10 + (m2.toNat - 48) < 60
  | ['z'] => true
  | _ => false

/-- Modelled from the Python stdlib call
`datetime.strptime(s, "%a, %d %b %Y %H:%M:%S %z").date()` used by
`to_date`: case-insensitive weekday and month names, a literal comma after
the weekday, one-or-two-digit day in 1-31 further validated against the
month length, exactly four year digits with year at least 1, a valid time
and timezone.  Any mismatch raises `ValueError` in Python, `none` here. -/
def strptimeRSS (s : String) : Option Date :=
  match wsTokensAux (s.toList.map Char.toLower) [] with
  | [wd, d, mon, y, time, tz] =>
    if String.mk wd ∈ ["mon,", "tue,", "wed,", "thu,", "fri,", "sat,", "sun,"] then
      match parseBounded d 2 31, monthNum (String.mk mon), parseDigits y with
      | some dd, some mm, some yy =>
        if 1 ≤ dd ∧ y.length = 4 ∧ 1 ≤ yy ∧ timeOk time ∧ tzOk tz ∧
            dd ≤ daysInMonth yy mm then
          some ⟨yy, mm, dd⟩
        else none
      | _, _, _ => none
    else none
  | _ => none

/-- `to_date` from `util/rss_feed_books.py`: falsy input (absent tag or
empty string) yields `None`; otherwise the RSS timestamp is stripped and
parsed, with `ValueError` swallowed into `None`. -/
def to_date (rss_datetime : Option String) : Option Date :=
  match rss_datetime with
  | none => none
  | some t => if t = "" then none else strptimeRSS (pyStripStr t)

/-- `int(x) if x else None` as used for `user_rating` and `book_published`
in `parse_rss`: falsy (`None` or empty) input gives `None`; otherwise a
failed `int` conversion raises `ValueError`. -/
def parseOptInt (o : Option String) : Except PyErr (Option Int) :=
  match o with
  | none => Except.ok none
  | some s =>
    if s = "" then Except.ok none
    else
      match pyInt s with
      | some n => Except.ok (some n)
      | none => Except.error PyErr.valueError

/-- The per-item body of `parse_rss` in `util/rss_feed_books.py`.  The row
dict's values are evaluated in source order, so the first failing
conversion determines the raised exception: a missing `title` raises
`AttributeError` (`None.strip()`), a missing `author_name` raises
`TypeError` (`re.sub` on `None`), a missing `average_rating` raises
`TypeError` (`float(None)`) and an unparsable one `ValueError`, and
non-integer `user_rating`/`book_published` raise `ValueError`.  The nested
`<book>` element then overrides `book_id` and sets `num_pages` only when
the text is a nonempty digit string (`isdigit` guard). -/
def parseItem (it : RawItem) : Except PyErr Book :=
  match it.title with
  | none => Except.error PyErr.attributeError
  | some titleRaw =>
  match it.author_name with
  | none => Except.error PyErr.typeError
  | some authorRaw =>
  match it.average_rating with
  | none => Except.error PyErr.typeError
  | some avgRaw =>
  match pyFloat avgRaw with
  | none => Except.error PyErr.valueError
  | some avg =>
  match parseOptInt it.user_rating with
  | Except.error e => Except.error e
  | Except.ok ur =>
  match parseOptInt it.book_published with
  | Except.error e => Except.error e
  | Except.ok bp =>
  let row : Book :=
    { title := pyStripStr titleRaw
      author := collapseWs authorRaw
      user_shelves :=
        match it.user_shelves with
        | none => "read"
        | some "" => "read"
        | some s => s
      link := "https://www.goodreads.com/book/show/" ++
        (match it.book_id with
         | none => "None"
         | some s => s)
      isbn := it.isbn
      average_rating := avg
      user_rating := ur
      user_review := it.user_review.getD ""
      read_at := to_date it.user_read_at
      date_added := to_date it.user_date_added
      book_id := it.book_id
      num_pages := none
      book_published := bp
      image_small := it.book_small_image_url
      image_medium := it.book_medium_image_url
      image_large := it.book_large_image_url }
  match it.book with
  | none => Except.ok row
  | some be =>
    Except.ok
      { row with
        book_id := be.id
        num_pages := be.num_pages.bind (fun np => parseDigits np.toList) }

/-! ## Pagination: the RSS feed path (`util/rss_feed_books.py`) -/

/-- Exceptions a page fetch-and-parse can raise in the RSS path:
`requests.raise_for_status` on a non-success response (`badStatus`),
`xml.etree.ElementTree.fromstring` on malformed markup (`malformedXml`),
and the `AttributeError` when `root.find("channel")` is `None`
(`missingRoot`).  None of these is caught anywhere in
`util/rss_feed_books.py`. -/
inductive FetchErr where
  | badStatus
  | malformedXml
  | missingRoot
deriving DecidableEq, Repr

/-- A page source: the composition of `fetch_goodreads_rss` and
`parse_rss` for one user and shelf, indexed by page number.  A successful
fetch-and-parse yields the page's records; a transport or parse failure
is a raised exception. -/
def PageSource : Type := Nat → Except FetchErr (List Book)

/-- The `while True` pagination loop of `fetch_users_books`: fetch and
parse page `page`; an exception propagates (the Python loop has no
`try`/`except`); a page with fewer than 100 records (the empty page
included) is appended and the loop breaks; otherwise the page is appended
and the loop continues.  `fuel` bounds the recursion; every theorem
supplies enough fuel for the loop to reach its exit. -/
def fetchPagesAux (f : PageSource) : Nat → Nat → Except FetchErr (List Book)
  | 0, _ => Except.ok []
  | fuel + 1, page =>
    match f page with
    | Except.error e => Except.error e
    | Except.ok recs =>
      if recs.length < 100 then Except.ok recs
      else
        match fetchPagesAux f fuel (page + 1) with
        | Except.error e => Except.error e
        | Except.ok rest => Except.ok (recs ++ rest)

/-- The shelf-priority key of `fetch_users_books`:
`shelf_order.index(s)` for `shelf_order = ["currently-reading", "to-read",
"read"]`, and `len(shelf_order)` for any other shelf name. -/
def shelfOrderIndex (s : String) : Nat :=
  if s = "currently-reading" then 0
  else if s = "to-read" then 1
  else if s = "read" then 2
  else 3

/-- The `sort_values("shelf_order")` step of `fetch_users_books`.  The
order of records with equal keys is not specified by the source (pandas'
default quicksort is not a stable sort); the embedding fixes one sorted
arrangement, and no theorem below relies on the arrangement of ties. -/
def sortShelves (l : List Book) : List Book :=
  l.mergeSort (fun a b => shelfOrderIndex a.user_shelves ≤ shelfOrderIndex b.user_shelves)

/-- `fetch_users_books` from `util/rss_feed_books.py`: paginate from page
1, concatenate the pages, then sort by shelf priority.  An exception from
any page fetch propagates to the caller. -/
def fetch_users_books (f : PageSource) (fuel : Nat) : Except FetchErr (List Book) :=
  (fetchPagesAux f fuel 1).map sortShelves

/-! ## Pagination: the HTML-table path (`goodreads_parser.py`) -/

/-- The specific-shelf pagination loop of `get_all_goodreads_user_books`.
Each page comes from `get_goodreads_user_books_by_page`, which returns an
empty frame when the fetch fails (`fetch_goodreads_data_as_df` returns
`None` on any `RequestException` or missing `books` table), so the page
source here is total.  The loop breaks on an empty page before appending,
appends the page otherwise, and breaks after appending when the page has
fewer than 90 records (`MAX_EMPTY_PAGES` aside, `if len(page_books) < 90:
break`). -/
def getAllPagesAux (f : Nat → List Book) : Nat → Nat → List Book
  | 0, _ => []
  | fuel + 1, page =>
    let recs := f page
    if recs.length = 0 then []
    else if recs.length < 90 then recs
    else recs ++ getAllPagesAux f fuel (page + 1)

/-- The request URLs built by `get_goodreads_user_books_by_page` in
`goodreads_parser.py`: for shelf `'all'` it loops over the three shelves
building each URL from the literal id `129990632` (the `user_id` argument
is not interpolated), with `per_page=100`; for a specific shelf it builds
one URL from the `user_id` argument. -/
def get_goodreads_user_books_by_page_urls (user_id : String) (page_num : Nat)
    (shelf : String) : List String :=
  if pyLower shelf = "all" then
    ["read", "currently-reading", "to-read"].map (fun s =>
      "https://www.goodreads.com/review/list/129990632?utf8=%E2%9C%93&utf8=%E2%9C%93&per_page=100&page=" ++
        toString page_num ++ "&shelf=" ++ s)
  else
    ["https://www.goodreads.com/review/list/" ++ user_id ++ "?page=" ++
      toString page_num ++ "&shelf=" ++ shelf]

/-! ## Cross-user metrics (`util/blend.py`) -/

/-- Python `round(x, k)` modelled over `ℚ` with `d = 10^k`: round to the
nearest multiple of `1/d`.  (Python rounds exact halves to even; `round`
here rounds them up.  The two agree everywhere else, and no claim hinges
on an exact tie.) -/
def roundTo (d : Nat) (x : ℚ) : ℚ := ((round (x * d) : Int) : ℚ) / d

/-- `round(x, 1)`. -/
def round1 (x : ℚ) : ℚ := roundTo 10 x

/-- `round(x, 2)`. -/
def round2 (x : ℚ) : ℚ := roundTo 100 x

/-- `round(x, 3)`. -/
def round3 (x : ℚ) : ℚ := roundTo 1000 x

/-- Python `int(float)`: truncation toward zero, used by
`calculate_publication_year_metrics` on the mean publication year. -/
def pyTruncInt (q : ℚ) : Int := if 0 ≤ q then ⌊q⌋ else ⌈q⌉

/-- `filter_shelf_books(df, shelf_name)`: the records on one shelf. -/
def filter_shelf_books (l : List Book) (shelf_name : String) : List Book :=
  l.filter (fun b => b.user_shelves = shelf_name)

/-- `set(df["book_id"].dropna())`: the distinct non-null book ids. -/
def bookIdSet (l : List Book) : Finset String :=
  (l.filterMap Book.book_id).toFinset

/-- `set(df["author"].dropna())`: the distinct author strings (`author` is
never null in a parsed row). -/
def authorSet (l : List Book) : Finset String :=
  (l.map Book.author).toFinset

/-- The six half-open publication-era ranges of `calculate_era_metrics`,
in their fixed source order: a year falls in the first range `(start, end)`
with `start ≤ year < end`; years outside every range (below 0 or at/above
3000) fall in no bucket. -/
def eraBucket (y : Int) : Option (Fin 6) :=
  if 0 ≤ y ∧ y < 1900 then some 0
  else if 1900 ≤ y ∧ y < 1950 then some 1
  else if 1950 ≤ y ∧ y < 1980 then some 2
  else if 1980 ≤ y ∧ y < 2000 then some 3
  else if 2000 ≤ y ∧ y < 2010 then some 4
  else if 2010 ≤ y ∧ y < 3000 then some 5
  else none

/-- The era-distribution count for one bucket: the number of records of
the given (read-shelf) list with a non-null publication year in that
bucket. -/
def eraCount (lr : List Book) (i : Fin 6) : Nat :=
  ((lr.filterMap Book.book_published).filter (fun y => eraBucket y = some i)).length

/-- `sum(user_era_dist.values())`: the dated books that fell in a bucket. -/
def eraTotal (lr : List Book) : Nat :=
  Finset.univ.sum (fun i : Fin 6 => eraCount lr i)

/-- One user's era-distribution percentage for one bucket:
`round(count / total * 100, 1)` when the user has dated books in buckets,
else `0`. -/
def eraPct (lr : List Book) (i : Fin 6) : ℚ :=
  if 0 < eraTotal lr then
    round1 ((eraCount lr i : ℚ) / (eraTotal lr : ℚ) * 100)
  else 0

/-- `era_similarity` from `calculate_era_metrics`: the dot product of the
two normalized six-bucket distributions, times 100 and rounded to one
decimal; `0` when either user has no dated read books in a bucket. -/
def eraSimilarity (l1r l2r : List Book) : ℚ :=
  if 0 < eraTotal l1r ∧ 0 < eraTotal l2r then
    round1 ((Finset.univ.sum (fun i : Fin 6 =>
      ((eraCount l1r i : ℚ) / (eraTotal l1r : ℚ)) *
        ((eraCount l2r i : ℚ) / (eraTotal l2r : ℚ)))) * 100)
  else 0

/-- The median of a pandas numeric column: `none` on an empty column,
otherwise the middle element of the sorted values (mean of the two middle
elements for an even count). -/
def medianQ (l : List ℚ) : Option ℚ :=
  if l.length = 0 then none
  else
    let s := l.mergeSort (fun a b => decide (a ≤ b))
    if s.length % 2 = 1 then some (s.getD (s.length / 2) 0)
    else some ((s.getD (s.length / 2 - 1) 0 + s.getD (s.length / 2) 0) / 2)

/-- The nonzero user ratings of a library:
`df[df["user_rating"] > 0]["user_rating"]` (null ratings compare false). -/
def positiveRatings (l : List Book) : List Int :=
  (l.filterMap Book.user_rating).filter (fun r => 0 < r)

/-- The fields of the `calculate_blend_metrics` output that
`compute_blend_score` reads (each built exactly as in `util/blend.py`;
a `.get` of a missing key never occurs since `calculate_blend_metrics`
always writes these keys). -/
structure Metrics where
  user1_total_book_count : Nat
  user2_total_book_count : Nat
  user1_read_count : Nat
  user2_read_count : Nat
  common_books_count : Nat
  common_read_books_count : Nat
  common_authors_count : Nat
  era_similarity : ℚ
  user1_avg_rating : Option ℚ
  user2_avg_rating : Option ℚ
  user1_median_page_length : Option ℚ
  user2_median_page_length : Option ℚ
  user1_avg_pub_year : Option Int
  user2_avg_pub_year : Option Int
deriving DecidableEq, Repr

/-- `calculate_blend_metrics` restricted to the fields above: shelf
filters, count metrics, the `book_id`-set overlaps, the author-set
overlap, era similarity on the read shelves, mean nonzero ratings
(rounded to 2), median read-shelf page counts, and truncated mean
read-shelf publication years. -/
def metricsOf (l1 l2 : List Book) : Metrics :=
  let l1r := filter_shelf_books l1 "read"
  let l2r := filter_shelf_books l2 "read"
  let r1 := positiveRatings l1
  let r2 := positiveRatings l2
  let y1 := l1r.filterMap Book.book_published
  let y2 := l2r.filterMap Book.book_published
  { user1_total_book_count := l1.length
    user2_total_book_count := l2.length
    user1_read_count := l1r.length
    user2_read_count := l2r.length
    common_books_count := (bookIdSet l1 ∩ bookIdSet l2).card
    common_read_books_count := (bookIdSet l1r ∩ bookIdSet l2r).card
    common_authors_count := (authorSet l1 ∩ authorSet l2).card
    era_similarity := eraSimilarity l1r l2r
    user1_avg_rating :=
      if r1.length = 0 then none
      else some (round2 (((r1.sum : Int) : ℚ) / (r1.length : ℚ)))
    user2_avg_rating :=
      if r2.length = 0 then none
      else some (round2 (((r2.sum : Int) : ℚ) / (r2.length : ℚ)))
    user1_median_page_length :=
      medianQ ((l1r.filterMap Book.num_pages).map (fun n => (n : ℚ)))
    user2_median_page_length :=
      medianQ ((l2r.filterMap Book.num_pages).map (fun n => (n : ℚ)))
    user1_avg_pub_year :=
      if y1.length = 0 then none
      else some (pyTruncInt (((y1.sum : Int) : ℚ) / (y1.length : ℚ)))
    user2_avg_pub_year :=
      if y2.length = 0 then none
      else some (pyTruncInt (((y2.sum : Int) : ℚ) / (y2.length : ℚ))) }

/-! ## Blend scorer (`compute_blend_score`) -/

/-- The `genre_insights` structure consumed by `compute_blend_score`; an
absent or skipped AI response is `none` (every `.get` then defaults to the
empty list). -/
structure GenreInsights where
  user1_preferences : List String
  user2_preferences : List String
  shared_genres : List String
deriving DecidableEq, Repr

/-- The `common_books` similarity: read-read overlap over the smaller read
count (denominator clamped to at least 1), blended 70/30 with the
any-shelf overlap over the smaller total count. -/
def simCommonBooks (m : Metrics) : ℚ :=
  let denomRR : Nat := max 1 (min m.user1_read_count m.user2_read_count)
  let simRR : ℚ :=
    if 0 < denomRR then min 1 ((m.common_read_books_count : ℚ) / (denomRR : ℚ)) else 0
  let denomAny : Nat := max 1 (min m.user1_total_book_count m.user2_total_book_count)
  let simAny : ℚ :=
    if 0 < denomAny then min 1 ((m.common_books_count : ℚ) / (denomAny : ℚ)) else 0
  0.7 * simRR + 0.3 * simAny

/-- The `common_authors` similarity: shared-author count over the size of
the union of the two author sets (`or 1` guards the empty union). -/
def simCommonAuthors (df1 df2 : List Book) (m : Metrics) : ℚ :=
  let u := (authorSet df1 ∪ authorSet df2).card
  let unionAuthors : Nat := if u = 0 then 1 else u
  min 1 ((m.common_authors_count : ℚ) / (unionAuthors : ℚ))

/-- The `genres` similarity: shared genres over the smaller preference
list (denominator clamped to at least 1). -/
def simGenre (ai : Option GenreInsights) : ℚ :=
  let u1 := (ai.map GenreInsights.user1_preferences).getD []
  let u2 := (ai.map GenreInsights.user2_preferences).getD []
  let shared := (ai.map GenreInsights.shared_genres).getD []
  let denom : Nat := max 1 (min u1.length u2.length)
  if 0 < denom then min 1 ((shared.length : ℚ) / (denom : ℚ)) else 0

/-- The `era` similarity: `era_similarity / 100` (no clamping). -/
def simEra (m : Metrics) : ℚ := m.era_similarity / 100

/-- The `rating` similarity: proximity of mean ratings on a 0-4 scale,
`0.5` when either mean is null. -/
def simRating (m : Metrics) : ℚ :=
  match m.user1_avg_rating, m.user2_avg_rating with
  | some a, some b => max 0 (1 - |a - b| / 4)
  | _, _ => 0.5

/-- The `length` similarity: proximity of median page counts, differences
capped at 400 pages, `0.5` when either median is null. -/
def simLength (m : Metrics) : ℚ :=
  match m.user1_median_page_length, m.user2_median_page_length with
  | some a, some b => max 0 (1 - min 1 (|a - b| / 400))
  | _, _ => 0.5

/-- The `year` similarity: proximity of mean publication years,
differences capped at 50 years, `0.5` when either mean is null. -/
def simYear (m : Metrics) : ℚ :=
  match m.user1_avg_pub_year, m.user2_avg_pub_year with
  | some a, some b => max 0 (1 - min 1 ((|a - b| : Int) / (50 : ℚ)))
  | _, _ => 0.5

/-- The dict returned by `compute_blend_score`: the score, the seven
components rounded to three decimals, and the fixed weights mapping. -/
structure BlendResult where
  score : ℚ
  comp_common_books : ℚ
  comp_common_authors : ℚ
  comp_genres : ℚ
  comp_era : ℚ
  comp_rating : ℚ
  comp_length : ℚ
  comp_year : ℚ
  weights : List (String × ℚ)
deriving DecidableEq, Repr

/-- The fixed weights dict of `compute_blend_score`. -/
def blendWeights : List (String × ℚ) :=
  [("common_books", 0.25), ("common_authors", 0.10), ("genres", 0.25),
   ("era", 0.15), ("rating", 0.10), ("length", 0.10), ("year", 0.05)]

/-- `compute_blend_score` from `util/blend.py`: the weighted sum of the
seven similarities times 100, rounded to one decimal, with the components
rounded to three decimals. -/
def compute_blend_score (df1 df2 : List Book) (m : Metrics)
    (ai : Option GenreInsights) : BlendResult :=
  let score :=
    (simCommonBooks m * 0.25 + simCommonAuthors df1 df2 m * 0.10 +
      simGenre ai * 0.25 + simEra m * 0.15 + simRating m * 0.10 +
      simLength m * 0.10 + simYear m * 0.05) * 100
  { score := round1 score
    comp_common_books := round3 (simCommonBooks m)
    comp_common_authors := round3 (simCommonAuthors df1 df2 m)
    comp_genres := round3 (simGenre ai)
    comp_era := round3 (simEra m)
    comp_rating := round3 (simRating m)
    comp_length := round3 (simLength m)
    comp_year := round3 (simYear m)
    weights := blendWeights }

/-! ## `blend_two_users` sparse-data policy -/

/-- The `_status` classifier nested in `blend_two_users`. -/
def dataStatus (total read : Nat) : String :=
  if total < 5 ∨ read < 3 then "low"
  else if total < 10 ∨ read < 5 then "moderate"
  else "ok"

/-- The outcome of `blend_two_users` after both libraries are in hand: the
blend dict, the `preliminary`/`note` marks, and whether the AI-insights
collaborator was invoked (`get_ai_insights` is called exactly when not
both users are `low`). -/
structure BlendOutcome where
  blend : BlendResult
  preliminary : Bool
  note : Option String
  ai_invoked : Bool
deriving DecidableEq, Repr

/-- The scoring tail of `blend_two_users` in `util/blend.py`, over the two
fetched libraries and the AI collaborator `getAI` (whose response is
`none` when it carries no usable `genre_insights`): classify both users,
skip the collaborator when both are `low` (the score is then computed
with an empty insights dict), and mark the result preliminary with a note
when either user is not `ok`. -/
def blend_two_users_core (l1 l2 : List Book)
    (getAI : Unit → Option GenreInsights) : BlendOutcome :=
  let m := metricsOf l1 l2
  let u1s := dataStatus m.user1_total_book_count m.user1_read_count
  let u2s := dataStatus m.user2_total_book_count m.user2_read_count
  let preliminary : Bool := decide (u1s ≠ "ok" ∨ u2s ≠ "ok")
  let skipAI : Bool := decide (u1s = "low" ∧ u2s = "low")
  let ai : Option GenreInsights := if skipAI then none else getAI ()
  { blend := compute_blend_score l1 l2 m ai
    preliminary := preliminary
    note :=
      if preliminary then
        some "Limited data for one or both users; score may be less stable."
      else none
    ai_invoked := !skipAI }

/-! ## `find_common_books` lookup maps -/

/-- The per-user dict of `find_common_books`:
`{book["book_id"]: book for book in books}` maps each `book_id` (possibly
`None`, a valid Python key) to the LAST record carrying it, later dict
insertions overwriting earlier ones. -/
def lookupLast (l : List Book) (k : Option String) : Option Book :=
  (l.filter (fun b => b.book_id = k)).getLast?

/-! ## Concrete inputs used by counterexamples and witnesses -/

/-- A record with the given id and shelf and neutral other fields. -/
def mkBook (id : String) (shelf : String) : Book :=
  { title := "t" ++ id, author := "a" ++ id, user_shelves := shelf, link := "",
    isbn := none, average_rating := 4, user_rating := none, user_review := "",
    read_at := none, date_added := none, book_id := some id, num_pages := none,
    book_published := none, image_small := none, image_medium := none,
    image_large := none }

/-- A read-shelf record with the given publication year. -/
def mkEraBook (y : Int) : Book :=
  { mkBook ("y" ++ toString y) "read" with book_published := some y }

/-- Library: book `a` on `read`, book `b` on `to-read`. -/
def exL1 : List Book := [mkBook "a" "read", mkBook "b" "to-read"]

/-- Library: books `a` and `c` on `read`. -/
def exL2 : List Book := [mkBook "a" "read", mkBook "c" "read"]

/-- Six read books, one in each publication-era bucket. -/
def exEraBooks : List Book :=
  [mkEraBook 1800, mkEraBook 1920, mkEraBook 1960, mkEraBook 1990,
   mkEraBook 2005, mkEraBook 2015]

/-- A full page: 100 records with ids `"0"` to `"99"`. -/
def dupPage1 : List Book := (List.range 100).map (fun i => mkBook (toString i) "read")

/-- A short second page repeating id `"0"` from the first page. -/
def dupPage2 : List Book := [mkBook "0" "read"]

/-- A page source serving a full page then a short page with a duplicated
id. -/
def dupSource : PageSource := fun n =>
  if n = 1 then Except.ok dupPage1
  else if n = 2 then Except.ok dupPage2
  else Except.ok []

/-- The library built from `dupSource`. -/
def builtLibC6 : List Book :=
  match fetch_users_books dupSource 10 with
  | Except.ok l => l
  | Except.error _ => []

/-- A page source whose first page succeeds with 100 records and whose
second page fails with a non-success HTTP response. -/
def exFetchC2 : PageSource := fun n =>
  if n = 1 then Except.ok dupPage1 else Except.error FetchErr.badStatus

/-- A 37-record page. -/
def page37 : List Book := (List.range 37).map (fun i => mkBook ("p3" ++ toString i) "read")

/-- An RSS page source serving pages of sizes 100, 100, 37. -/
def rssSource237 : PageSource := fun n =>
  if n = 1 then Except.ok dupPage1
  else if n = 2 then Except.ok dupPage1
  else if n = 3 then Except.ok page37
  else Except.ok []

/-- An HTML-path page source serving pages of sizes 100, 100, 37. -/
def htmlSource237 : Nat → List Book := fun n =>
  if n = 1 then dupPage1 else if n = 2 then dupPage1
  else if n = 3 then page37 else []

/-- An HTML-path page source serving pages of sizes 95 and 37. -/
def htmlSource95 : Nat → List Book := fun n =>
  if n = 1 then (List.range 95).map (fun i => mkBook (toString i) "read")
  else if n = 2 then (List.range 37).map (fun i => mkBook ("p2" ++ toString i) "read")
  else []

/-- A raw item whose `average_rating` tag is absent and whose other fields
are all well-formed. -/
def exItemC8 : RawItem :=
  { title := some "A Title", author_name := some "An Author",
    user_shelves := some "read", isbn := none, average_rating := none,
    user_rating := some "4", user_review := none,
    user_read_at := some "Tue, 05 Mar 2019 10:11:12 -0800",
    user_date_added := none, book_id := some "1", book_published := some "1999",
    book_small_image_url := none, book_medium_image_url := none,
    book_large_image_url := none, book := none }

/-- A fully well-formed raw item. -/
def exItemOk : RawItem :=
  { title := some " A Title ", author_name := some "An  Author",
    user_shelves := some "to-read", isbn := some "isbn1",
    average_rating := some "4.13", user_rating := some "5",
    user_review := some "great",
    user_read_at := some "Tue, 05 Mar 2019 10:11:12 -0800",
    user_date_added := some "not set", book_id := some "7",
    book_published := some "1999", book_small_image_url := none,
    book_medium_image_url := none, book_large_image_url := none,
    book := some { id := some "7", num_pages := some "312" } }

/-- An all-zero metrics record. -/
def mW : Metrics :=
  { user1_total_book_count := 0, user2_total_book_count := 0,
    user1_read_count := 0, user2_read_count := 0, common_books_count := 0,
    common_read_books_count := 0, common_authors_count := 0,
    era_similarity := 0, user1_avg_rating := none, user2_avg_rating := none,
    user1_median_page_length := none, user2_median_page_length := none,
    user1_avg_pub_year := none, user2_avg_pub_year := none }

/-! ## Rounding lemmas -/

/-- `roundTo` of a nonnegative value is nonnegative. -/
lemma roundTo_nonneg (d : Nat) (x : ℚ) (hx : 0 ≤ x) : 0 ≤ roundTo d x := by
  unfold roundTo
  apply div_nonneg _ (by positivity)
  have h : (0 : ℤ) ≤ round (x * d) := by
    rw [round_eq]
    exact Int.le_floor.mpr (by push_cast; positivity)
  exact_mod_cast h

/-- `roundTo` does not overshoot an integer upper bound. -/
lemma roundTo_le_int (d : Nat) (hd : 0 < d) (x : ℚ) (c : Int) (hx : x ≤ c) :
    roundTo d x ≤ c := by
  unfold roundTo
  rw [div_le_iff₀ (by positivity)]
  have h : round (x * d) ≤ c * d := by
    rw [round_eq]
    have hfl : (⌊x * d + 1 / 2⌋ : ℤ) ≤ ⌊(c * d : ℚ) + 1 / 2⌋ := by
      apply Int.floor_le_floor
      have : x * d ≤ (c : ℚ) * d := by
        apply mul_le_mul_of_nonneg_right hx (by positivity)
      linarith
    have heq : (⌊(c * d : ℚ) + 1 / 2⌋ : ℤ) = c * d := by
      rw [show ((c : ℚ) * d) = ((c * d : ℤ) : ℚ) by push_cast; ring]
      rw [add_comm, Int.floor_add_int]
      norm_num
    omega
  calc ((round (x * d) : Int) : ℚ) ≤ ((c * d : ℤ) : ℚ) := by exact_mod_cast h
    _ = (c : ℚ) * d := by push_cast; ring

/-- The error of one-decimal rounding is at most `1/20`. -/
lemma abs_round1_sub (x : ℚ) : |round1 x - x| ≤ 1 / 20 := by
  unfold round1 roundTo
  have h : |x * 10 - round (x * 10)| ≤ 1 / 2 := abs_sub_round (x * 10)
  have h10 : ((round (x * 10) : Int) : ℚ) / 10 - x = -(x * 10 - round (x * 10)) / 10 := by
    ring
  rw [show ((10 : Nat) : ℚ) = 10 by norm_num, h10, abs_div, abs_neg]
  rw [show |(10 : ℚ)| = 10 by norm_num]
  linarith

/-! ## Range lemmas for the seven similarity components -/

/-- A clamped ratio `min 1 x` (or its 0-fallback) lies in `[0, 1]`. -/
lemma clamp01_mem (p : Prop) [Decidable p] (x : ℚ) (hx : 0 ≤ x) :
    0 ≤ (if p then min 1 x else 0) ∧ (if p then min 1 x else 0) ≤ 1 := by
  split_ifs
  · exact ⟨le_min (by norm_num) hx, min_le_left _ _⟩
  · exact ⟨le_refl 0, by norm_num⟩

/-- A 70/30 mix of two values in `[0, 1]` lies in `[0, 1]`. -/
lemma weighted_two_mem (x y : ℚ) (hx0 : 0 ≤ x) (hx1 : x ≤ 1) (hy0 : 0 ≤ y)
    (hy1 : y ≤ 1) : 0 ≤ 0.7 * x + 0.3 * y ∧ 0.7 * x + 0.3 * y ≤ 1 := by
  constructor <;> nlinarith

/-- The `common_books` component lies in `[0, 1]`. -/
lemma simCommonBooks_mem (m : Metrics) :
    0 ≤ simCommonBooks m ∧ simCommonBooks m ≤ 1 := by
  have h1 := clamp01_mem (0 < max 1 (min m.user1_read_count m.user2_read_count))
    ((m.common_read_books_count : ℚ) /
      ((max 1 (min m.user1_read_count m.user2_read_count) : Nat) : ℚ))
    (by positivity)
  have h2 := clamp01_mem (0 < max 1 (min m.user1_total_book_count m.user2_total_book_count))
    ((m.common_books_count : ℚ) /
      ((max 1 (min m.user1_total_book_count m.user2_total_book_count) : Nat) : ℚ))
    (by positivity)
  simp only [simCommonBooks]
  exact weighted_two_mem _ _ h1.1 h1.2 h2.1 h2.2

/-- The `common_authors` component lies in `[0, 1]`. -/
lemma simCommonAuthors_mem (df1 df2 : List Book) (m : Metrics) :
    0 ≤ simCommonAuthors df1 df2 m ∧ simCommonAuthors df1 df2 m ≤ 1 := by
  simp only [simCommonAuthors]
  exact ⟨le_min (by norm_num) (by positivity), min_le_left _ _⟩

/-- The `genres` component lies in `[0, 1]`. -/
lemma simGenre_mem (ai : Option GenreInsights) :
    0 ≤ simGenre ai ∧ simGenre ai ≤ 1 := by
  have h := clamp01_mem
    (0 < max 1 (min ((ai.map GenreInsights.user1_preferences).getD []).length
      ((ai.map GenreInsights.user2_preferences).getD []).length))
    ((((ai.map GenreInsights.shared_genres).getD []).length : ℚ) /
      ((max 1 (min ((ai.map GenreInsights.user1_preferences).getD []).length
        ((ai.map GenreInsights.user2_preferences).getD []).length) : Nat) : ℚ))
    (by positivity)
  simp only [simGenre]
  exact h

/-- The `era` component lies in `[0, 1]` when `era_similarity` is a
percentage in `[0, 100]`. -/
lemma simEra_mem (m : Metrics) (h0 : 0 ≤ m.era_similarity)
    (h100 : m.era_similarity ≤ 100) : 0 ≤ simEra m ∧ simEra m ≤ 1 := by
  simp only [simEra]
  constructor <;> [positivity; skip]
  rw [div_le_one (by norm_num)]
  linarith

/-- The `rating` component lies in `[0, 1]`. -/
lemma simRating_mem (m : Metrics) : 0 ≤ simRating m ∧ simRating m ≤ 1 := by
  unfold simRating
  cases m.user1_avg_rating with
  | none => cases m.user2_avg_rating <;> norm_num
  | some a =>
    cases m.user2_avg_rating with
    | none => norm_num
    | some b =>
      refine ⟨le_max_left _ _, max_le (by norm_num) ?_⟩
      have : (0 : ℚ) ≤ |a - b| / 4 := by positivity
      linarith

/-- The `length` component lies in `[0, 1]`. -/
lemma simLength_mem (m : Metrics) : 0 ≤ simLength m ∧ simLength m ≤ 1 := by
  unfold simLength
  cases m.user1_median_page_length with
  | none => cases m.user2_median_page_length <;> norm_num
  | some a =>
    cases m.user2_median_page_length with
    | none => norm_num
    | some b =>
      refine ⟨le_max_left _ _, max_le (by norm_num) ?_⟩
      have h0 : (0 : ℚ) ≤ min 1 (|a - b| / 400) := le_min_iff.mpr ⟨by norm_num, by positivity⟩
      linarith

/-- The `year` component lies in `[0, 1]`. -/
lemma simYear_mem (m : Metrics) : 0 ≤ simYear m ∧ simYear m ≤ 1 := by
  unfold simYear
  cases m.user1_avg_pub_year with
  | none => cases m.user2_avg_pub_year <;> norm_num
  | some a =>
    cases m.user2_avg_pub_year with
    | none => norm_num
    | some b =>
      refine ⟨le_max_left _ _, max_le (by norm_num) ?_⟩
      have h0 : (0 : ℚ) ≤ min 1 (((|a - b| : Int) : ℚ) / 50) := by
        refine le_min_iff.mpr ⟨by norm_num, ?_⟩
        have : (0 : ℚ) ≤ ((|a - b| : Int) : ℚ) := by positivity
        positivity
      linarith

/-- C1.  The blend score is 100 times the weighted sum of the seven
similarity components under the fixed weights 0.25/0.10/0.25/0.15/0.10/
0.10/0.05 (which sum to 1), rounded to one decimal; each component lies in
`[0, 1]` and the score lies in `[0, 100]`.  `era_similarity` is a
percentage in `[0, 100]` (which `calculate_era_metrics` guarantees for the
metrics the pipeline feeds in). -/
theorem c1_blend_score_formula (df1 df2 : List Book) (m : Metrics)
    (ai : Option GenreInsights) (h0 : 0 ≤ m.era_similarity)
    (h100 : m.era_similarity ≤ 100) :
    (blendWeights.map Prod.snd).sum = 1 ∧
    (compute_blend_score df1 df2 m ai).score =
      round1 (100 * (simCommonBooks m * 0.25 + simCommonAuthors df1 df2 m * 0.10 +
        simGenre ai * 0.25 + simEra m * 0.15 + simRating m * 0.10 +
        simLength m * 0.10 + simYear m * 0.05)) ∧
    (0 ≤ simCommonBooks m ∧ simCommonBooks m ≤ 1) ∧
    (0 ≤ simCommonAuthors df1 df2 m ∧ simCommonAuthors df1 df2 m ≤ 1) ∧
    (0 ≤ simGenre ai ∧ simGenre ai ≤ 1) ∧
    (0 ≤ simEra m ∧ simEra m ≤ 1) ∧
    (0 ≤ simRating m ∧ simRating m ≤ 1) ∧
    (0 ≤ simLength m ∧ simLength m ≤ 1) ∧
    (0 ≤ simYear m ∧ simYear m ≤ 1) ∧
    0 ≤ (compute_blend_score df1 df2 m ai).score ∧
    (compute_blend_score df1 df2 m ai).score ≤ 100 := by
  obtain ⟨hb0, hb1⟩ := simCommonBooks_mem m
  obtain ⟨ha0, ha1⟩ := simCommonAuthors_mem df1 df2 m
  obtain ⟨hg0, hg1⟩ := simGenre_mem ai
  obtain ⟨he0, he1⟩ := simEra_mem m h0 h100
  obtain ⟨hr0, hr1⟩ := simRating_mem m
  obtain ⟨hl0, hl1⟩ := simLength_mem m
  obtain ⟨hy0, hy1⟩ := simYear_mem m
  refine ⟨by norm_num [blendWeights], ?_, ⟨hb0, hb1⟩, ⟨ha0, ha1⟩, ⟨hg0, hg1⟩,
    ⟨he0, he1⟩, ⟨hr0, hr1⟩, ⟨hl0, hl1⟩, ⟨hy0, hy1⟩, ?_, ?_⟩
  · simp only [compute_blend_score]
    ring_nf
  · simp only [compute_blend_score]
    apply roundTo_nonneg
    nlinarith
  · simp only [compute_blend_score]
    have h := roundTo_le_int 10 (by norm_num)
      ((simCommonBooks m * 0.25 + simCommonAuthors df1 df2 m * 0.10 +
        simGenre ai * 0.25 + simEra m * 0.15 + simRating m * 0.10 +
        simLength m * 0.10 + simYear m * 0.05) * 100) 100 (by nlinarith)
    exact_mod_cast h

/-- Witness for C1 at concrete all-zero metrics. -/
theorem c1_blend_score_formula_witness :
    0 ≤ (compute_blend_score [] [] mW none).score ∧
    (compute_blend_score [] [] mW none).score ≤ 100 := by
  have h := c1_blend_score_formula [] [] mW none (by norm_num [mW]) (by norm_num [mW])
  exact ⟨h.2.2.2.2.2.2.2.2.2.1, h.2.2.2.2.2.2.2.2.2.2⟩

/-- C10.  In the `'all'` branch of `get_goodreads_user_books_by_page` the
request URLs are built from the hard-coded literal user id `129990632`:
the `user_id` argument has no effect there, so any caller gets exactly the
URLs that the fixed user `129990632` would get. -/
theorem c10_all_branch_ignores_user_id (user_id : String) (page_num : Nat) :
    get_goodreads_user_books_by_page_urls user_id page_num "all" =
      get_goodreads_user_books_by_page_urls "129990632" page_num "all" := by
  have h : pyLower "all" = "all" := by decide
  unfold get_goodreads_user_books_by_page_urls
  rw [if_pos h, if_pos h]

/-! ## C2: transport failures propagate out of the RSS paginator -/

/-- If every page before `n` is full (at least 100 records) and page `n`
raises, the pagination loop of `fetch_users_books` propagates that
exception. -/
lemma fetchPagesAux_error_propagates (f : PageSource) (e : FetchErr) :
    ∀ (fuel page n : Nat), page ≤ n → n < page + fuel →
      (∀ m, page ≤ m → m < n → ∃ l, f m = Except.ok l ∧ 100 ≤ l.length) →
      f n = Except.error e → fetchPagesAux f fuel page = Except.error e := by
  intro fuel
  induction fuel with
  | zero => intro page n h1 h2 _ _; omega
  | succ fuel ih =>
    intro page n h1 h2 hfull herr
    by_cases hpn : page = n
    · subst hpn
      simp only [fetchPagesAux, herr]
    · have hlt : page < n := lt_of_le_of_ne h1 hpn
      obtain ⟨l, hfl, hlen⟩ := hfull page le_rfl hlt
      have hrec : fetchPagesAux f fuel (page + 1) = Except.error e :=
        ih (page + 1) n (by omega) (by omega)
          (fun m hm1 hm2 => hfull m (by omega) hm2) herr
      simp only [fetchPagesAux, hfl, if_neg (not_lt.mpr hlen), hrec]

set_option maxRecDepth 8000 in
/-- C2 counterexample: a non-success response on the second page makes
`fetch_users_books` raise instead of returning the 100 records gathered
from the first page. -/
theorem c2_counterexample :
    fetch_users_books exFetchC2 10 = Except.error FetchErr.badStatus := by rfl

/-- C2 (amended).  A transport failure on any page is NOT absorbed: if
pages `1..n-1` are full and page `n` fails, `fetch_users_books`
propagates the exception and returns no records at all. -/
theorem c2_transport_failure_propagates (f : PageSource) (n : Nat)
    (e : FetchErr) (hn : 1 ≤ n)
    (hfull : ∀ m, 1 ≤ m → m < n → ∃ l, f m = Except.ok l ∧ 100 ≤ l.length)
    (herr : f n = Except.error e) (fuel : Nat) (hfuel : n ≤ fuel) :
    fetch_users_books f fuel = Except.error e := by
  have h : fetchPagesAux f fuel 1 = Except.error e :=
    fetchPagesAux_error_propagates f e fuel 1 n hn (by omega) hfull herr
  simp [fetch_users_books, h, Except.map]

/-- Witness for C2 (amended) at the concrete failing source. -/
theorem c2_transport_failure_propagates_witness :
    fetch_users_books exFetchC2 10 = Except.error FetchErr.badStatus := by
  apply c2_transport_failure_propagates exFetchC2 2 FetchErr.badStatus (by norm_num)
    ?_ (by rfl) 10 (by norm_num)
  intro m hm1 hm2
  have hm : m = 1 := by omega
  subst hm
  exact ⟨dupPage1, rfl, by rw [dupPage1]; simp⟩

/-! ## C3: pagination termination thresholds -/

/-- The shelf sort only permutes the merged pages. -/
lemma sortShelves_perm (l : List Book) : (sortShelves l).Perm l :=
  List.mergeSort_perm l _

set_option maxRecDepth 8000 in
/-- C3 counterexample: on pages of sizes [95, 37] the HTML-path paginator
`get_all_goodreads_user_books` fetches the second page (95 is not below
its threshold of 90) and yields 132 records, not the 95 that stopping at
the first page below the full-page size of 100 would give. -/
theorem c3_counterexample :
    (getAllPagesAux htmlSource95 10 1).length = 132 ∧
      (getAllPagesAux htmlSource95 10 1).length ≠ 95 := by
  have h : (getAllPagesAux htmlSource95 10 1).length = 132 := by rfl
  exact ⟨h, by omega⟩

/-- C3 (amended).  The RSS paginator `fetch_users_books` stops exactly
when a page has fewer than 100 records, while the HTML-path paginator
`get_all_goodreads_user_books` stops when a page is empty or has fewer
than 90 records; on three consecutive pages of sizes [100, 100, 37] both
terminate after the third page with 237 merged records (later pages are
never consulted: the sources are arbitrary beyond page 3). -/
theorem c3_pagination_termination :
    (∀ (f : PageSource) (p1 p2 p3 : List Book) (fuel : Nat),
      f 1 = Except.ok p1 → f 2 = Except.ok p2 → f 3 = Except.ok p3 →
      p1.length = 100 → p2.length = 100 → p3.length = 37 → 3 ≤ fuel →
      ∃ l, fetch_users_books f fuel = Except.ok l ∧ l.length = 237 ∧
        l.Perm (p1 ++ (p2 ++ p3))) ∧
    (∀ (g : Nat → List Book) (q1 q2 q3 : List Book) (fuel : Nat),
      g 1 = q1 → g 2 = q2 → g 3 = q3 →
      q1.length = 100 → q2.length = 100 → q3.length = 37 → 3 ≤ fuel →
      getAllPagesAux g fuel 1 = q1 ++ (q2 ++ q3) ∧
        (q1 ++ (q2 ++ q3)).length = 237) ∧
    (∀ (f : PageSource) (page : Nat) (l : List Book) (fuel : Nat),
      f page = Except.ok l → l.length < 100 →
      fetchPagesAux f (fuel + 1) page = Except.ok l) ∧
    (∀ (g : Nat → List Book) (page fuel : Nat),
      0 < (g page).length → (g page).length < 90 →
      getAllPagesAux g (fuel + 1) page = g page) := by
  refine ⟨?_, ?_, ?_, ?_⟩
  · intro f p1 p2 p3 fuel hf1 hf2 hf3 hl1 hl2 hl3 hfuel
    obtain ⟨k, rfl⟩ : ∃ k, fuel = k + 3 := ⟨fuel - 3, by omega⟩
    have h : fetchPagesAux f (k + 3) 1 = Except.ok (p1 ++ (p2 ++ p3)) := by
      simp only [show k + 3 = (k + 2) + 1 from rfl, fetchPagesAux, hf1, hl1]
      norm_num
      simp only [show k + 2 = (k + 1) + 1 from rfl, fetchPagesAux, hf2, hl2]
      norm_num
      simp only [fetchPagesAux, hf3, hl3]
      norm_num
    refine ⟨sortShelves (p1 ++ (p2 ++ p3)), ?_, ?_, sortShelves_perm _⟩
    · simp [fetch_users_books, h, Except.map]
    · rw [(sortShelves_perm _).length_eq]
      simp [hl1, hl2, hl3]
  · intro g q1 q2 q3 fuel hg1 hg2 hg3 hl1 hl2 hl3 hfuel
    obtain ⟨k, rfl⟩ : ∃ k, fuel = k + 3 := ⟨fuel - 3, by omega⟩
    constructor
    · simp only [show k + 3 = (k + 2) + 1 from rfl, getAllPagesAux, hg1, hl1]
      norm_num
      simp only [show k + 2 = (k + 1) + 1 from rfl, getAllPagesAux, hg2, hl2]
      norm_num
      simp only [getAllPagesAux, hg3, hl3]
      norm_num
      rw [if_neg (List.length_pos.mp (by omega)),
        if_neg (List.length_pos.mp (by omega))]
    · simp [hl1, hl2, hl3]
  · intro f page l fuel hf hlen
    simp [fetchPagesAux, hf, if_pos hlen]
  · intro g page fuel h0 h90
    simp only [getAllPagesAux]
    rw [if_neg (by omega), if_pos h90]

set_option maxRecDepth 8000 in
/-- Witness for C3 (amended): both paginators on the concrete
[100, 100, 37] sources. -/
theorem c3_pagination_termination_witness :
    (∃ l, fetch_users_books rssSource237 5 = Except.ok l ∧ l.length = 237 ∧
      l.Perm (dupPage1 ++ (dupPage1 ++ page37))) ∧
    getAllPagesAux htmlSource237 5 1 = dupPage1 ++ (dupPage1 ++ page37) := by
  constructor
  · exact c3_pagination_termination.1 rssSource237 dupPage1 dupPage1 page37 5
      rfl rfl rfl (by rw [dupPage1]; simp) (by rw [dupPage1]; simp)
      (by rw [page37]; simp) (by norm_num)
  · exact (c3_pagination_termination.2.1 htmlSource237 dupPage1 dupPage1 page37 5
      rfl rfl rfl (by rw [dupPage1]; simp) (by rw [dupPage1]; simp)
      (by rw [page37]; simp) (by norm_num)).1

/-! ## C6: the library build does not deduplicate book ids -/

set_option maxRecDepth 12000 in
/-- C6 counterexample: `dupSource` serves a full first page with ids
`"0"`-`"99"` and a second page repeating id `"0"`; the built library keeps
both records, so `book_id` is not unique within it. -/
theorem c6_counterexample :
    fetch_users_books dupSource 10 = Except.ok builtLibC6 ∧
      ¬ (builtLibC6.map Book.book_id).Nodup := by
  have haux : fetchPagesAux dupSource 10 1 = Except.ok (dupPage1 ++ dupPage2) := by rfl
  have hfl : fetch_users_books dupSource 10 =
      Except.ok (sortShelves (dupPage1 ++ dupPage2)) := by
    rw [fetch_users_books, haux]; rfl
  have hlib : builtLibC6 = sortShelves (dupPage1 ++ dupPage2) := by
    rw [builtLibC6, hfl]
  have hperm : (builtLibC6.map Book.book_id).Perm
      ((dupPage1 ++ dupPage2).map Book.book_id) := by
    rw [hlib]; exact (sortShelves_perm _).map _
  refine ⟨hlib ▸ hfl, ?_⟩
  intro hnd
  have hnd2 : ((dupPage1 ++ dupPage2).map Book.book_id).Nodup := hperm.nodup_iff.mp hnd
  exact absurd hnd2 (by decide)

/-- C6 (amended).  The library build performs no deduplication: the built
library is a permutation of the concatenation of the fetched pages, with
every duplicate id retained; and the lookup dicts of `find_common_books`
collapse a duplicated id to its LAST occurrence (a dict comprehension
overwrites earlier entries), not its first. -/
theorem c6_duplicates_retained :
    (∀ (f : PageSource) (fuel : Nat) (l : List Book),
      fetchPagesAux f fuel 1 = Except.ok l →
      ∃ lib, fetch_users_books f fuel = Except.ok lib ∧ lib.Perm l) ∧
    (∀ (l : List Book) (b : Book), lookupLast (l ++ [b]) b.book_id = some b) := by
  constructor
  · intro f fuel l h
    exact ⟨sortShelves l, by simp [fetch_users_books, h, Except.map],
      sortShelves_perm _⟩
  · intro l b
    rw [lookupLast, List.filter_append]
    simp

set_option maxRecDepth 12000 in
/-- Witness for C6 (amended) at the duplicate-id source. -/
theorem c6_duplicates_retained_witness :
    ∃ lib, fetch_users_books dupSource 10 = Except.ok lib ∧
      lib.Perm (dupPage1 ++ dupPage2) :=
  c6_duplicates_retained.1 dupSource 10 (dupPage1 ++ dupPage2) (by rfl)

/-! ## C5: sparse-data policy -/

/-- C5.  `blend_two_users` classifies each user `low` (total<5 or read<3),
`moderate` (total<10 or read<5), else `ok`; sets `preliminary` (with its
note) exactly when either user is not `ok` while still computing and
returning the blend score; and when both users are `low` it does not
invoke the genre collaborator and the genres component is 0. -/
theorem c5_sparse_data_policy (l1 l2 : List Book)
    (g : Unit → Option GenreInsights) :
    (∀ t r : Nat,
      ((t < 5 ∨ r < 3) → dataStatus t r = "low") ∧
      (¬(t < 5 ∨ r < 3) → (t < 10 ∨ r < 5) → dataStatus t r = "moderate") ∧
      (¬(t < 10 ∨ r < 5) → dataStatus t r = "ok")) ∧
    ((blend_two_users_core l1 l2 g).preliminary = true ↔
      (dataStatus (metricsOf l1 l2).user1_total_book_count
          (metricsOf l1 l2).user1_read_count ≠ "ok" ∨
        dataStatus (metricsOf l1 l2).user2_total_book_count
          (metricsOf l1 l2).user2_read_count ≠ "ok")) ∧
    ((blend_two_users_core l1 l2 g).preliminary = true →
      (blend_two_users_core l1 l2 g).note =
        some "Limited data for one or both users; score may be less stable.") ∧
    ((blend_two_users_core l1 l2 g).blend =
      compute_blend_score l1 l2 (metricsOf l1 l2)
        (if dataStatus (metricsOf l1 l2).user1_total_book_count
              (metricsOf l1 l2).user1_read_count = "low" ∧
            dataStatus (metricsOf l1 l2).user2_total_book_count
              (metricsOf l1 l2).user2_read_count = "low"
          then none else g ())) ∧
    ((dataStatus (metricsOf l1 l2).user1_total_book_count
          (metricsOf l1 l2).user1_read_count = "low" ∧
        dataStatus (metricsOf l1 l2).user2_total_book_count
          (metricsOf l1 l2).user2_read_count = "low") →
      (blend_two_users_core l1 l2 g).ai_invoked = false ∧
        (blend_two_users_core l1 l2 g).blend.comp_genres = 0) := by
  refine ⟨?_, ?_, ?_, ?_, ?_⟩
  · intro t r
    refine ⟨fun h => by rw [dataStatus, if_pos h],
      fun h1 h2 => by rw [dataStatus, if_neg h1, if_pos h2],
      fun h => by rw [dataStatus, if_neg (by omega : ¬(t < 5 ∨ r < 3)), if_neg h]⟩
  · simp [blend_two_users_core]
  · intro h
    simp only [blend_two_users_core] at h ⊢
    simp only [h]
    rfl
  · by_cases h : dataStatus (metricsOf l1 l2).user1_total_book_count
        (metricsOf l1 l2).user1_read_count = "low" ∧
      dataStatus (metricsOf l1 l2).user2_total_book_count
        (metricsOf l1 l2).user2_read_count = "low"
    · simp [blend_two_users_core, h]
    · simp [blend_two_users_core, h]
  · intro h
    constructor
    · simp [blend_two_users_core, h.1, h.2]
    · simp [blend_two_users_core, h.1, h.2, compute_blend_score]
      simp [simGenre, round3, roundTo]

/-- Witness for C5 at two empty libraries (both users `low`). -/
theorem c5_sparse_data_policy_witness :
    (blend_two_users_core [] [] (fun _ => some ⟨["g"], ["g"], ["g"]⟩)).ai_invoked
        = false ∧
      (blend_two_users_core [] []
        (fun _ => some ⟨["g"], ["g"], ["g"]⟩)).blend.comp_genres = 0 :=
  (c5_sparse_data_policy [] [] (fun _ => some ⟨["g"], ["g"], ["g"]⟩)).2.2.2.2
    ⟨by rfl, by rfl⟩

/-! ## C9: era-distribution percentage sums -/

/-- C9 counterexample: a user with six dated read books, one per era
bucket, gets six percentages of 16.7 summing to 100.2 — outside the
claimed ±0.1 tolerance around 100. -/
theorem c9_counterexample :
    Finset.univ.sum (fun i : Fin 6 => eraPct exEraBooks i) = 501/5 ∧
      ¬ |(501 : ℚ)/5 - 100| ≤ 1/10 := by
  have hc : ∀ i : Fin 6, eraCount exEraBooks i = 1 := by decide
  have ht : eraTotal exEraBooks = 6 := by decide
  have hp : ∀ i : Fin 6, eraPct exEraBooks i = 167/10 := by
    intro i
    rw [eraPct, if_pos (show 0 < eraTotal exEraBooks by rw [ht]; norm_num), hc i, ht]
    rw [round1, roundTo, round_eq]
    norm_num
  constructor
  · rw [Finset.sum_congr rfl (fun i _ => hp i), Finset.sum_const, Finset.card_univ]
    rw [Fintype.card_fin]
    rw [nsmul_eq_mul]
    norm_num
  · rw [abs_of_nonneg (by norm_num)]
    norm_num

set_option maxHeartbeats 1000000 in
/-- C9 (amended).  For a user whose dated read books fall in the six era
buckets, the six percentages sum to 100 within ±0.3 (six one-decimal
roundings of at most 0.05 each) when at least one book is bucketed, and
are all exactly 0 when none is. -/
theorem c9_era_percentages_sum (lr : List Book) :
    (0 < eraTotal lr →
      |Finset.univ.sum (fun i : Fin 6 => eraPct lr i) - 100| ≤ 3/10) ∧
    (eraTotal lr = 0 → ∀ i : Fin 6, eraPct lr i = 0) := by
  constructor
  · intro hT
    have hT0 : ((eraTotal lr : ℚ)) ≠ 0 := by exact_mod_cast hT.ne'
    have hc : Finset.univ.sum (fun i : Fin 6 => (eraCount lr i : ℚ)) =
        (eraTotal lr : ℚ) := by
      rw [eraTotal]
      push_cast
      rfl
    have hsum : Finset.univ.sum
        (fun i : Fin 6 => (eraCount lr i : ℚ) / (eraTotal lr : ℚ) * 100) = 100 := by
      have hfn : (fun i : Fin 6 => (eraCount lr i : ℚ) / (eraTotal lr : ℚ) * 100) =
          (fun i : Fin 6 => (eraCount lr i : ℚ) * (100 / (eraTotal lr : ℚ))) := by
        funext i
        ring
      rw [hfn, ← Finset.sum_mul, hc]
      field_simp
    have hpct : ∀ i : Fin 6, eraPct lr i =
        round1 ((eraCount lr i : ℚ) / (eraTotal lr : ℚ) * 100) :=
      fun i => by rw [eraPct, if_pos hT]
    have h1 : Finset.univ.sum (fun i : Fin 6 => eraPct lr i) - 100 =
        Finset.univ.sum (fun i : Fin 6 =>
          round1 ((eraCount lr i : ℚ) / (eraTotal lr : ℚ) * 100) -
            (eraCount lr i : ℚ) / (eraTotal lr : ℚ) * 100) := by
      rw [Finset.sum_sub_distrib, hsum]
      congr 1
      exact Finset.sum_congr rfl (fun i _ => hpct i)
    rw [h1]
    calc |Finset.univ.sum (fun i : Fin 6 =>
          round1 ((eraCount lr i : ℚ) / (eraTotal lr : ℚ) * 100) -
            (eraCount lr i : ℚ) / (eraTotal lr : ℚ) * 100)|
        ≤ Finset.univ.sum (fun i : Fin 6 =>
          |round1 ((eraCount lr i : ℚ) / (eraTotal lr : ℚ) * 100) -
            (eraCount lr i : ℚ) / (eraTotal lr : ℚ) * 100|) :=
          Finset.abs_sum_le_sum_abs _ _
      _ ≤ Finset.univ.sum (fun _ : Fin 6 => (1 : ℚ)/20) :=
          Finset.sum_le_sum (fun i _ => abs_round1_sub _)
      _ ≤ 3/10 := by
          rw [Finset.sum_const, Finset.card_univ, Fintype.card_fin, nsmul_eq_mul]
          norm_num
  · intro h i
    rw [eraPct, if_neg (by omega)]

/-- Witness for C9 (amended): one bucketed book, and the empty library. -/
theorem c9_era_percentages_sum_witness :
    |Finset.univ.sum (fun i : Fin 6 => eraPct [mkEraBook 2015] i) - 100| ≤ 3/10 ∧
      eraPct [] 0 = 0 :=
  ⟨(c9_era_percentages_sum [mkEraBook 2015]).1 (by decide),
    (c9_era_percentages_sum []).2 (by decide) 0⟩

/-! ## C4: common_books boundary values -/

/-- `filterMap` preserves length when the function is total on the list. -/
lemma length_filterMap_of_isSome {α β : Type} (f : α → Option β) :
    ∀ l : List α, (∀ b ∈ l, (f b).isSome) → (l.filterMap f).length = l.length := by
  intro l
  induction l with
  | nil => simp
  | cons a t ih =>
    intro h
    rw [List.filterMap_cons]
    cases hfa : f a with
    | none =>
      have := h a (by simp)
      rw [hfa] at this
      simp at this
    | some b =>
      simp only [List.length_cons]
      rw [ih (fun x hx => h x (by simp [hx]))]

/-- When every record has an id and ids are unique, the id set has one
element per record. -/
lemma bookIdSet_card_of_unique (l : List Book)
    (hid : ∀ b ∈ l, (b.book_id).isSome)
    (hnd : (l.filterMap Book.book_id).Nodup) :
    (bookIdSet l).card = l.length := by
  rw [bookIdSet, List.toFinset_card_of_nodup hnd,
    length_filterMap_of_isSome Book.book_id l hid]

/-- The id set never has more elements than the library has records. -/
lemma bookIdSet_card_le (l : List Book) : (bookIdSet l).card ≤ l.length :=
  le_trans (List.toFinset_card_le _) (l.length_filterMap_le Book.book_id)

/-- Read-shelf ids are library ids. -/
lemma bookIdSet_read_subset (l : List Book) :
    bookIdSet (filter_shelf_books l "read") ⊆ bookIdSet l := by
  intro x hx
  rw [bookIdSet, List.mem_toFinset] at hx ⊢
  exact ((List.filter_sublist l).filterMap Book.book_id).subset hx

/-- Sufficient conditions for a full-score `common_books` component: user
1's ids are unique and non-null, the read-shelf id set is nonempty and
contained in user 2's read-shelf ids, and the whole library's ids are
contained in user 2's. -/
lemma simCommonBooks_eq_one (l1 l2 : List Book)
    (hid1 : ∀ b ∈ l1, (b.book_id).isSome)
    (hnd1 : (l1.filterMap Book.book_id).Nodup)
    (hread : bookIdSet (filter_shelf_books l1 "read") ⊆
      bookIdSet (filter_shelf_books l2 "read"))
    (hall : bookIdSet l1 ⊆ bookIdSet l2)
    (hne : filter_shelf_books l1 "read" ≠ []) :
    simCommonBooks (metricsOf l1 l2) = 1 := by
  have hsubl : (filter_shelf_books l1 "read").Sublist l1 := List.filter_sublist l1
  have hid1r : ∀ b ∈ filter_shelf_books l1 "read", (b.book_id).isSome :=
    fun b hb => hid1 b (hsubl.subset hb)
  have hnd1r : ((filter_shelf_books l1 "read").filterMap Book.book_id).Nodup :=
    hnd1.sublist (hsubl.filterMap Book.book_id)
  have hcard1r : (bookIdSet (filter_shelf_books l1 "read")).card =
      (filter_shelf_books l1 "read").length :=
    bookIdSet_card_of_unique _ hid1r hnd1r
  have hr1pos : 0 < (filter_shelf_books l1 "read").length := List.length_pos.mpr hne
  have hr12 : (filter_shelf_books l1 "read").length ≤
      (filter_shelf_books l2 "read").length := by
    calc (filter_shelf_books l1 "read").length
        = (bookIdSet (filter_shelf_books l1 "read")).card := hcard1r.symm
      _ ≤ (bookIdSet (filter_shelf_books l2 "read")).card := Finset.card_le_card hread
      _ ≤ (filter_shelf_books l2 "read").length := bookIdSet_card_le _
  have hcommon_r : (bookIdSet (filter_shelf_books l1 "read") ∩
      bookIdSet (filter_shelf_books l2 "read")).card =
      (filter_shelf_books l1 "read").length := by
    rw [Finset.inter_eq_left.mpr hread, hcard1r]
  have hcard1 : (bookIdSet l1).card = l1.length := bookIdSet_card_of_unique _ hid1 hnd1
  have ht1pos : 0 < l1.length := by
    cases l1 with
    | nil => simp [filter_shelf_books] at hne
    | cons a t => simp
  have ht12 : l1.length ≤ l2.length := by
    calc l1.length = (bookIdSet l1).card := hcard1.symm
      _ ≤ (bookIdSet l2).card := Finset.card_le_card hall
      _ ≤ l2.length := bookIdSet_card_le _
  have hcommon_a : (bookIdSet l1 ∩ bookIdSet l2).card = l1.length := by
    rw [Finset.inter_eq_left.mpr hall, hcard1]
  have hm1 : (metricsOf l1 l2).user1_read_count =
      (filter_shelf_books l1 "read").length := rfl
  have hm2 : (metricsOf l1 l2).user2_read_count =
      (filter_shelf_books l2 "read").length := rfl
  have hm3 : (metricsOf l1 l2).common_read_books_count =
      (bookIdSet (filter_shelf_books l1 "read") ∩
        bookIdSet (filter_shelf_books l2 "read")).card := rfl
  have hm4 : (metricsOf l1 l2).user1_total_book_count = l1.length := rfl
  have hm5 : (metricsOf l1 l2).user2_total_book_count = l2.length := rfl
  have hm6 : (metricsOf l1 l2).common_books_count =
      (bookIdSet l1 ∩ bookIdSet l2).card := rfl
  rw [simCommonBooks, hm1, hm2, hm3, hm4, hm5, hm6, hcommon_r, hcommon_a]
  rw [min_eq_left hr12, min_eq_left ht12]
  rw [max_eq_right hr1pos, max_eq_right ht1pos]
  rw [if_pos hr1pos, if_pos ht1pos]
  rw [div_self (by exact_mod_cast hr1pos.ne' :
    ((filter_shelf_books l1 "read").length : ℚ) ≠ 0)]
  rw [div_self (by exact_mod_cast ht1pos.ne' : ((l1.length : ℚ)) ≠ 0)]
  norm_num

/-- The `common_books` component is symmetric in the two users. -/
lemma simCommonBooks_metricsOf_comm (l1 l2 : List Book) :
    simCommonBooks (metricsOf l2 l1) = simCommonBooks (metricsOf l1 l2) := by
  simp only [simCommonBooks, metricsOf]
  rw [min_comm (filter_shelf_books l2 "read").length,
    min_comm l2.length,
    Finset.inter_comm (bookIdSet (filter_shelf_books l2 "read")),
    Finset.inter_comm (bookIdSet l2)]

/-- Disjoint libraries give a zero `common_books` component. -/
lemma simCommonBooks_eq_zero (l1 l2 : List Book)
    (h : bookIdSet l1 ∩ bookIdSet l2 = ∅) :
    simCommonBooks (metricsOf l1 l2) = 0 := by
  have hr : bookIdSet (filter_shelf_books l1 "read") ∩
      bookIdSet (filter_shelf_books l2 "read") = ∅ := by
    apply Finset.subset_empty.mp
    calc bookIdSet (filter_shelf_books l1 "read") ∩
        bookIdSet (filter_shelf_books l2 "read")
        ⊆ bookIdSet l1 ∩ bookIdSet l2 :=
          Finset.inter_subset_inter (bookIdSet_read_subset l1) (bookIdSet_read_subset l2)
      _ ⊆ ∅ := h.le
  have hm3 : (metricsOf l1 l2).common_read_books_count =
      (bookIdSet (filter_shelf_books l1 "read") ∩
        bookIdSet (filter_shelf_books l2 "read")).card := rfl
  have hm6 : (metricsOf l1 l2).common_books_count =
      (bookIdSet l1 ∩ bookIdSet l2).card := rfl
  rw [simCommonBooks, hm3, hm6, hr, h]
  have h1 : (0 : Nat) < max 1 (min (metricsOf l1 l2).user1_read_count
      (metricsOf l1 l2).user2_read_count) :=
    lt_of_lt_of_le one_pos (le_max_left _ _)
  have h2 : (0 : Nat) < max 1 (min (metricsOf l1 l2).user1_total_book_count
      (metricsOf l1 l2).user2_total_book_count) :=
    lt_of_lt_of_le one_pos (le_max_left _ _)
  rw [if_pos h1, if_pos h2]
  simp

/-- C4 counterexample: user 1's read shelf {a} is contained in user 2's
read shelf {a, c}, yet the `common_books` component is 0.85, not 1, since
the 30% any-shelf term sees user 1's `to-read` book `b` missing from user
2's library. -/
theorem c4_counterexample :
    bookIdSet (filter_shelf_books exL1 "read") ⊆
      bookIdSet (filter_shelf_books exL2 "read") ∧
    simCommonBooks (metricsOf exL1 exL2) = 17/20 ∧ ((17 : ℚ)/20) ≠ 1 := by
  refine ⟨by decide, ?_, by norm_num⟩
  have h1 : (metricsOf exL1 exL2).user1_read_count = 1 := by decide
  have h2 : (metricsOf exL1 exL2).user2_read_count = 2 := by decide
  have h3 : (metricsOf exL1 exL2).common_read_books_count = 1 := by decide
  have h4 : (metricsOf exL1 exL2).user1_total_book_count = 2 := by decide
  have h5 : (metricsOf exL1 exL2).user2_total_book_count = 2 := by decide
  have h6 : (metricsOf exL1 exL2).common_books_count = 1 := by decide
  rw [simCommonBooks, h1, h2, h3, h4, h5, h6]
  norm_num [min_def]

/-- C4 (amended).  With unique non-null ids on both sides, the
`common_books` component is exactly 1.0 when one user's read-shelf ids are
a nonempty subset of the other's read-shelf ids AND that user's whole
library ids are a subset of the other's; it is exactly 0.0 when the two
libraries share no id. -/
theorem c4_common_books_boundaries (l1 l2 : List Book)
    (hid1 : ∀ b ∈ l1, (b.book_id).isSome)
    (hid2 : ∀ b ∈ l2, (b.book_id).isSome)
    (hnd1 : (l1.filterMap Book.book_id).Nodup)
    (hnd2 : (l2.filterMap Book.book_id).Nodup) :
    (((bookIdSet (filter_shelf_books l1 "read") ⊆
          bookIdSet (filter_shelf_books l2 "read") ∧
        bookIdSet l1 ⊆ bookIdSet l2 ∧ filter_shelf_books l1 "read" ≠ []) ∨
      (bookIdSet (filter_shelf_books l2 "read") ⊆
          bookIdSet (filter_shelf_books l1 "read") ∧
        bookIdSet l2 ⊆ bookIdSet l1 ∧ filter_shelf_books l2 "read" ≠ [])) →
      simCommonBooks (metricsOf l1 l2) = 1) ∧
    (bookIdSet l1 ∩ bookIdSet l2 = ∅ →
      simCommonBooks (metricsOf l1 l2) = 0) := by
  constructor
  · intro h
    rcases h with ⟨ha, hb, hc⟩ | ⟨ha, hb, hc⟩
    · exact simCommonBooks_eq_one l1 l2 hid1 hnd1 ha hb hc
    · rw [← simCommonBooks_metricsOf_comm]
      exact simCommonBooks_eq_one l2 l1 hid2 hnd2 ha hb hc
  · exact simCommonBooks_eq_zero l1 l2

/-- Witness for C4 (amended): identical singleton read shelves give 1;
disjoint singletons give 0. -/
theorem c4_common_books_boundaries_witness :
    simCommonBooks (metricsOf [mkBook "a" "read"] [mkBook "a" "read"]) = 1 ∧
      simCommonBooks (metricsOf [mkBook "a" "read"] [mkBook "b" "read"]) = 0 :=
  ⟨(c4_common_books_boundaries [mkBook "a" "read"] [mkBook "a" "read"]
      (by decide) (by decide) (by decide) (by decide)).1
      (Or.inl ⟨by decide, by decide, by decide⟩),
    (c4_common_books_boundaries [mkBook "a" "read"] [mkBook "b" "read"]
      (by decide) (by decide) (by decide) (by decide)).2 (by decide)⟩

/-! ## C8: field normalization failure behaviour -/

/-- C8 counterexample: a raw item whose `average_rating` tag is absent
(every other field well-formed) makes `parse_rss` raise `TypeError`
(`float(None)`) instead of yielding a null field. -/
theorem c8_counterexample :
    parseItem exItemC8 = Except.error PyErr.typeError := by rfl

/-- C8 (amended).  Date and page-count normalization never fail — "not
set" and any string `strptime` rejects normalize to null, and the URL and
review fields are total — but the rating and publication-year conversions
are unguarded: item parsing succeeds exactly on items whose `title` and
`author_name` are present, whose `average_rating` is present and
float-parsable, and whose `user_rating`/`book_published` are absent,
empty or int-parsable. -/
theorem c8_field_normalization :
    (∀ (it : RawItem) (t a ar : String),
      it.title = some t → it.author_name = some a →
      it.average_rating = some ar →
      (∃ q, pyFloat ar = some q) →
      (∀ s, it.user_rating = some s → s ≠ "" → ∃ n, pyInt s = some n) →
      (∀ s, it.book_published = some s → s ≠ "" → ∃ n, pyInt s = some n) →
      ∃ b, parseItem it = Except.ok b) ∧
    to_date (some "not set") = none ∧
    to_date none = none ∧
    (∀ s : String, strptimeRSS (pyStripStr s) = none → to_date (some s) = none) := by
  refine ⟨?_, by rfl, rfl, ?_⟩
  · intro it t a ar ht ha har hq hur hbp
    obtain ⟨q, hq⟩ := hq
    have hu : ∃ v, parseOptInt it.user_rating = Except.ok v := by
      cases hiu : it.user_rating with
      | none => exact ⟨none, rfl⟩
      | some s =>
        by_cases hs : s = ""
        · subst hs
          exact ⟨none, rfl⟩
        · obtain ⟨n, hn⟩ := hur s hiu hs
          exact ⟨some n, by simp [parseOptInt, hs, hn]⟩
    have hb : ∃ v, parseOptInt it.book_published = Except.ok v := by
      cases hib : it.book_published with
      | none => exact ⟨none, rfl⟩
      | some s =>
        by_cases hs : s = ""
        · subst hs
          exact ⟨none, rfl⟩
        · obtain ⟨n, hn⟩ := hbp s hib hs
          exact ⟨some n, by simp [parseOptInt, hs, hn]⟩
    obtain ⟨v1, hv1⟩ := hu
    obtain ⟨v2, hv2⟩ := hb
    unfold parseItem
    simp only [ht, ha, har, hq, hv1, hv2]
    cases it.book <;> exact ⟨_, rfl⟩
  · intro s h
    by_cases hs : s = ""
    · simp [to_date, hs]
    · simp [to_date, hs, h]

/-- Witness for C8 (amended) at a fully well-formed raw item. -/
theorem c8_field_normalization_witness :
    ∃ b, parseItem exItemOk = Except.ok b :=
  c8_field_normalization.1 exItemOk " A Title " "An  Author" "4.13" rfl rfl rfl
    ⟨_, rfl⟩
    (fun s hs hne => ⟨5, by
      have : s = "5" := by
        have h5 : exItemOk.user_rating = some "5" := rfl
        rw [h5] at hs
        exact Option.some_injective _ hs.symm
      rw [this]
      rfl⟩)
    (fun s hs hne => ⟨1999, by
      have : s = "1999" := by
        have h9 : exItemOk.book_published = some "1999" := rfl
        rw [h9] at hs
        exact Option.some_injective _ hs.symm
      rw [this]
      rfl⟩)

end BookBlend
